import Mathlib

/-!
# SafeLand — verification of the spatial feature-derivation engine

Shallow embedding of the SafeLand repository's feature-enrichment core:
the cache decorator (`backend/cache.py`), the elevation/slope source
(`backend/data_sources/bhuvan_api.py`), the batched enrichment script
(`scripts/enrich_with_indian_sources.py`), the zone classifier
(`backend/data_sources/ksdma_zones.py`), the flood-history processor
(`backend/data_sources/sentinel_processor.py`), the waterway queries
(`backend/data_sources/osm_processor.py`), and the raster training-set
scripts (`scripts/add_non_flooded_samples.py`,
`scripts/extract_flood_training_data_raster.py`).

Modelling conventions:
* Python floats are modelled exactly as rationals (`ℚ`), moving to `ℝ`
  only where the source applies `sqrt` / trigonometric functions.
* `round(x, n)` in Python is round-half-to-even: modelled by `pyRound`.
* `int(x)` in Python truncates toward zero: modelled by `truncQ`.
* External HTTP responses are explicit values of small response types;
  an `exn` constructor stands for any raised exception (timeout,
  connection error, JSON decode error), which the source catches.
* `shapely`'s point-to-linestring distance is an opaque external
  function (a parameter); polygon containment tests are passed as the
  list of their boolean outcomes.
-/

open scoped Classical

namespace SafeLand

/-- Python `int(q)`: truncation toward zero. -/
def truncQ (q : ℚ) : ℤ := if 0 ≤ q then ⌊q⌋ else ⌈q⌉

/-- Python `round` to an integer: round half to even (banker's rounding). -/
noncomputable def roundHalfEven (x : ℝ) : ℤ :=
  if x - ⌊x⌋ < 1 / 2 then ⌊x⌋
  else if 1 / 2 < x - ⌊x⌋ then ⌊x⌋ + 1
  else if Even ⌊x⌋ then ⌊x⌋ else ⌊x⌋ + 1

/-- Python `round(x, nd)` for `nd` decimal digits. -/
noncomputable def pyRound (x : ℝ) (nd : ℕ) : ℝ :=
  (roundHalfEven (x * 10 ^ nd) : ℝ) / 10 ^ nd

/-- `math.degrees`. -/
noncomputable def degrees (x : ℝ) : ℝ := x * 180 / Real.pi

/-- `np.radians` / `math.radians` applied to an exact rational degree value. -/
noncomputable def radians (d : ℚ) : ℝ := (d : ℝ) * Real.pi / 180

/-! ## Cache (`backend/cache.py`, `cache_result`)

One call of the wrapper produced by `cache_result(expiry_hours)` is a
function of the current store, the cache key (the deterministic string
`f"{func.__name__}:{args}:{kwargs}"`, abstracted here as the key value),
the current wall-clock time and the wrapped function.  It returns the
value handed to the caller, the store after the call, and whether the
wrapped function was invoked (the code's "fresh data" branch). -/

/-- `cache_result(expiry_hours)` wrapper body (`backend/cache.py` lines 23-40). -/
def cacheWrapper {α : Type} (expiry_hours : ℚ) (store : String → Option (α × ℚ))
    (key : String) (now : ℚ) (func : Unit → α) :
    α × (String → Option (α × ℚ)) × Bool :=
  match store key with
  | some (data, timestamp) =>
      if now - timestamp < expiry_hours * 3600 then
        (data, store, false)
      else
        let result := func ()
        (result, Function.update store key (some (result, now)), true)
  | none =>
      let result := func ()
      (result, Function.update store key (some (result, now)), true)

/-! ## Elevation source

HTTP responses of the Open-Meteo elevation endpoint: status code plus
the JSON body's `"elevation"` field — `none` when the key is absent,
otherwise the list of per-point values (`none` entries are JSON
`null`). `exn` is any raised exception. -/

inductive HttpResp where
  | resp (code : ℕ) (body : Option (List (Option ℚ)))
  | exn
deriving DecidableEq

/-- `BhuvanAPI.get_elevation` (`backend/data_sources/bhuvan_api.py` lines 34-55)
as a function of the provider's response for the queried coordinate.
On 200 it evaluates `float(data.get('elevation', [0])[0])`; an absent key
yields the default `[0]`, an empty list raises `IndexError` and a `null`
entry makes `float` raise `TypeError`, both caught by the `except` branch
returning `50.0`; any non-200 status also returns `50.0`. -/
def get_elevation (r : HttpResp) : ℚ :=
  match r with
  | .resp code body =>
      if code = 200 then
        match (body.getD [some 0])[0]? with
        | some (some v) => v
        | _ => 50
      else 50
  | .exn => 50

/-- The per-point retry performed inside the HTTP-414 branch of
`fetch_elevations_batch` (`scripts/enrich_with_indian_sources.py` lines 61-68).
`some v` means the retry assigned `v` into the result array; `none` means no
assignment happened (non-200 retry status, raised exception, or empty
elevation list) and the preinitialised default `50.0` is kept.
On 200 the code runs `v = r2.json().get("elevation", [50.0])[0]` and then
`elevations[i+j] = float(v) if v else 50.0`, so a `null` or `0.0` value is
replaced by `50.0`. -/
def retry_point_update (r : HttpResp) : Option ℚ :=
  match r with
  | .resp code body =>
      if code = 200 then
        match (body.getD [some 50])[0]? with
        | some (some v) => some (if v = 0 then 50 else v)
        | some none => some 50
        | none => none
      else none
  | .exn => none

/-- The elevation provider's behaviour during one run of
`fetch_elevations_batch`: the response to the `i`-th batched GET and the
response to the per-point retry GET for the `k`-th coordinate of the
whole input (issued only in the 414 branch). -/
structure ElevProvider where
  batch : ℕ → HttpResp
  single : ℕ → HttpResp

/-- One iteration of the batch loop of `fetch_elevations_batch`
(`scripts/enrich_with_indian_sources.py` lines 48-73): the final values of
`elevations[start : start+cnt]` for the batch with index `bIdx` covering
`cnt` coordinates starting at global index `start`.  All slots begin at the
default `50.0`.  On 200, slot `j` is overwritten with the `j`-th body entry
when that entry exists and is not `null` (the provider returns at most one
value per requested point, in request order).  On 414 each point is retried
individually.  On any other status, or on a raised exception, the loop body
only prints and every slot keeps `50.0`. -/
def batchValues (prov : ElevProvider) (bIdx start cnt : ℕ) : List ℚ :=
  match prov.batch bIdx with
  | .resp code body =>
      if code = 200 then
        (List.range cnt).map (fun j =>
          match (body.getD [])[j]? with
          | some (some v) => v
          | _ => 50)
      else if code = 414 then
        (List.range cnt).map (fun j =>
          match retry_point_update (prov.single (start + j)) with
          | some v => v
          | none => 50)
      else List.replicate cnt 50
  | .exn => List.replicate cnt 50

/-- `fetch_elevations_batch` over `n` coordinates with batch size `bs`
(`scripts/enrich_with_indian_sources.py` lines 44-74): the loop
`for i in range(0, n, bs)` processes `⌈n / bs⌉` batches, the `i`-th covering
`min bs (n - i*bs)` coordinates. -/
def fetch_elevations_batch (prov : ElevProvider) (bs n : ℕ) : List ℚ :=
  ((List.range ((n + bs - 1) / bs)).map
    (fun i => batchValues prov i (i * bs) (min bs (n - i * bs)))).flatten

/-- A response shape on which the single-point code path and the 414
per-point-retry code path decode to the same value: any failure response,
or a 200 response that does carry the `"elevation"` key and whose first
entry (if any) is not the number `0`. -/
def agreeableResp : HttpResp → Prop
  | .resp code body => code = 200 → ∃ l, body = some l ∧ l[0]? ≠ some (some 0)
  | .exn => True

/-! ## Zone classifier (`backend/data_sources/ksdma_zones.py`) -/

/-- Elevation-based fallback of `KSDMAZones.get_vulnerability_zone`
(`backend/data_sources/ksdma_zones.py` lines 48-63), used when no zone map
is loaded. -/
def get_vulnerability_zone_fallback (elevation : ℚ) : ℤ :=
  if elevation < 10 then 5
  else if elevation < 30 then 4
  else if elevation < 60 then 3
  else if elevation < 100 then 2
  else 1

/-- The inner `zone` function of `compute_ksdma_zones`
(`scripts/enrich_with_indian_sources.py` lines 98-104). -/
def zone (e : ℚ) : ℤ :=
  if e < 10 then 5
  else if e < 30 then 4
  else if e < 60 then 3
  else if e < 100 then 2
  else 1

/-- `compute_ksdma_zones` (`scripts/enrich_with_indian_sources.py` line 105). -/
def compute_ksdma_zones (elevations : List ℚ) : List ℤ :=
  elevations.map zone

/-! ## Flood history (`backend/data_sources/sentinel_processor.py`) -/

/-- `SentinelProcessor.get_flood_frequency`, polygon mode
(`sentinel_processor.py` lines 79-89): iterate over the footprint features
and count those whose polygon contains the point.  The geometric
containment tests are passed as their boolean outcomes, one per feature. -/
def get_flood_frequency_polygon (contains : List Bool) : ℕ :=
  contains.count true

/-- `SentinelProcessor.get_flood_frequency`, fallback mode
(`sentinel_processor.py` lines 63-77): heuristic from elevation and the
KSDMA vulnerability zone. -/
def get_flood_frequency_fallback (elevation : ℚ) (zoneLevel : ℤ) : ℕ :=
  if elevation < 10 ∧ 4 ≤ zoneLevel then 3
  else if elevation < 30 ∧ 3 ≤ zoneLevel then 1
  else 0

/-- `SentinelProcessor.get_flood_history` (`sentinel_processor.py` lines 48-49)
as a function of the frequency it delegates to. -/
def get_flood_history (freq : ℕ) : ℕ :=
  if 0 < freq then 1 else 0

/-- Return value of `SentinelProcessor.get_flood_events_detail`. -/
structure FloodDetail where
  total_events : ℕ
  flooded_2018 : Bool
  flooded_2019 : Bool
  flooded_2021 : Bool
  risk_category : String
deriving DecidableEq

/-- `SentinelProcessor.get_flood_events_detail`
(`sentinel_processor.py` lines 106-114) as a function of the flood
frequency it computes first. -/
def get_flood_events_detail (freq : ℕ) : FloodDetail :=
  { total_events := freq
    flooded_2018 := decide (1 ≤ freq)
    flooded_2019 := decide (2 ≤ freq)
    flooded_2021 := decide (3 ≤ freq)
    risk_category := if 2 ≤ freq then "High" else if freq = 1 then "Medium" else "Low" }

/-- Numeric value of one of the per-year flags. -/
def flagVal (b : Bool) : ℕ := if b then 1 else 0

/-! ## Raster training pipeline
(`scripts/extract_flood_training_data_raster.py`,
`scripts/add_non_flooded_samples.py`) -/

/-- `flood_history_count` derived column
(`extract_flood_training_data_raster.py` line 149): sum of the grouped
per-year flags. -/
def flood_history_count (f2018 f2019 f2021 : ℕ) : ℕ := f2018 + f2019 + f2021

/-- `assign_risk` (`extract_flood_training_data_raster.py` lines 152-155). -/
def assign_risk (count : ℕ) : String :=
  if 2 ≤ count then "High" else if count = 1 then "Medium" else "Low"

/-- The `'max'` aggregation used by the `groupby` consolidation
(`extract_flood_training_data_raster.py` lines 141-146). -/
def agg_max (observations : List ℕ) : ℕ := observations.foldr max 0

/-- The inverse affine transform `~transform` of a raster, as the affine
map `(lon, lat) ↦ (col, row)` with rational coefficients:
`col = a·lon + b·lat + c`, `row = d·lon + e·lat + f`. -/
structure Affine where
  a : ℚ
  b : ℚ
  c : ℚ
  d : ℚ
  e : ℚ
  f : ℚ

/-- A loaded flood raster band: its shape and pixel values
(flood-indicator counts, as read from the uint GeoTIFF band). -/
structure Raster where
  rows : ℕ
  cols : ℕ
  pix : ℤ → ℤ → ℕ

/-- `point_to_pixel` (`add_non_flooded_samples.py` lines 56-60):
`col, row = ~transform * (lon, lat); return int(row), int(col)`. -/
def point_to_pixel (tr : Affine) (lon lat : ℚ) : ℤ × ℤ :=
  (truncQ (tr.d * lon + tr.e * lat + tr.f), truncQ (tr.a * lon + tr.b * lat + tr.c))

/-- `is_flooded` (`add_non_flooded_samples.py` lines 62-78): walk the year
rasters in order; inside bounds with a positive pixel value → `some true`
("flooded"); out of bounds → `none` ("skip this point"); otherwise continue,
ending with `some false` ("not flooded in any year").  All years share the
single `transform` passed by `main`. -/
def is_flooded (rasters : List Raster) (tr : Affine) (lon lat : ℚ) : Option Bool :=
  match rasters with
  | [] => some false
  | r :: rest =>
      let rc := point_to_pixel tr lon lat
      if 0 ≤ rc.1 ∧ rc.1 < (r.rows : ℤ) ∧ 0 ≤ rc.2 ∧ rc.2 < (r.cols : ℤ) then
        if 0 < r.pix rc.1 rc.2 then some true
        else is_flooded rest tr lon lat
      else none

/-- The acceptance test of the sampling loop of `generate_non_flood_samples`
(`add_non_flooded_samples.py` lines 100-123): a random point is appended to
the non-flood sample list iff `is_flooded(...) is False`. -/
def acceptPoint (rasters : List Raster) (tr : Affine) (lon lat : ℚ) : Bool :=
  is_flooded rasters tr lon lat = some false

/-- The record appended for an accepted point
(`add_non_flooded_samples.py` lines 109-117). -/
structure Sample where
  latitude : ℚ
  longitude : ℚ
  flooded_2018 : ℕ
  flooded_2019 : ℕ
  flooded_2021 : ℕ
  flood_history_count : ℕ
  risk : String

/-- The non-flood sample record built by `generate_non_flood_samples`. -/
def nonFloodSample (lat lon : ℚ) : Sample :=
  { latitude := lat, longitude := lon, flooded_2018 := 0, flooded_2019 := 0
    flooded_2021 := 0, flood_history_count := 0, risk := "Low" }

/-! ## Waterway index, training side
(`scripts/enrich_with_indian_sources.py` lines 125-156)

A waterway node is a `(lon, lat)` pair, exactly as stored in the
GeoJSON coordinate arrays loaded by `load_waterway_nodes`. -/

/-- `_haversine_km` (`enrich_with_indian_sources.py` lines 125-130) from the
point `(lat, lon)` to one node `(nlon, nlat)`. -/
noncomputable def haversine_km (lat lon : ℚ) (node : ℚ × ℚ) : ℝ :=
  let dlat := radians (node.2 - lat)
  let dlon := radians (node.1 - lon)
  let a := Real.sin (dlat / 2) ^ 2 +
    Real.cos (radians lat) * Real.cos (radians node.2) * Real.sin (dlon / 2) ^ 2
  6371 * 2 * Real.arcsin (Real.sqrt a)

/-- One iteration of `compute_river_distances`
(`enrich_with_indian_sources.py` lines 132-142): the distance recorded for
the point `(lat, lon)`.  Nodes are prefiltered by the `±0.5°` box on both
axes; an empty prefilter result appends the fallback `10.0`, otherwise the
minimum haversine distance is rounded to 3 decimals. -/
noncomputable def river_distance_point (nodes : List (ℚ × ℚ)) (lat lon : ℚ) : ℝ :=
  let nearby := nodes.filter (fun node =>
    decide (|node.2 - lat| < 1 / 2 ∧ |node.1 - lon| < 1 / 2))
  match nearby with
  | [] => 10
  | x :: xs => pyRound ((xs.map (haversine_km lat lon)).foldl min (haversine_km lat lon x)) 3

/-- `compute_river_distances` over the zipped coordinate lists. -/
noncomputable def compute_river_distances (lats lons : List ℚ) (nodes : List (ℚ × ℚ)) :
    List ℝ :=
  (lats.zip lons).map (fun p => river_distance_point nodes p.1 p.2)

/-- One iteration of `compute_drainage_density`
(`enrich_with_indian_sources.py` lines 144-156): the density recorded for
the point `(lat, lon)` with analysis radius `radius_km` (default 1.0).
Nodes are prefiltered by a box of half-width `deg * 1.5` where
`deg = radius_km / 111`; an empty prefilter result appends `0.0`, otherwise
the count of nodes within `radius_km` haversine distance is divided by the
saturation constant 100, clamped at 1.0 and rounded to 3 decimals. -/
noncomputable def compute_drainage_density_point (nodes : List (ℚ × ℚ))
    (lat lon radius_km : ℚ) : ℝ :=
  let deg : ℚ := radius_km / 111
  let nearby := nodes.filter (fun node =>
    decide (|node.2 - lat| < deg * (3 / 2) ∧ |node.1 - lon| < deg * (3 / 2)))
  if nearby = [] then 0
  else
    let cnt : ℕ := nearby.countP (fun node => haversine_km lat lon node ≤ (radius_km : ℝ))
    pyRound (min ((cnt : ℝ) / 100) 1) 3

/-- `compute_drainage_density` over the zipped coordinate lists. -/
noncomputable def compute_drainage_density (lats lons : List ℚ) (nodes : List (ℚ × ℚ))
    (radius_km : ℚ) : List ℝ :=
  (lats.zip lons).map (fun p => compute_drainage_density_point nodes p.1 p.2 radius_km)

/-! ## Waterway queries, serving side (`backend/data_sources/osm_processor.py`)

An Overpass response: HTTP status code and the decoded `elements` list
(each element optionally carrying a `geometry` list of `(lon, lat)`
nodes); `exn` is any raised exception. -/

/-- One element of an Overpass response. -/
structure OElement where
  geometry : Option (List (ℚ × ℚ))

/-- An Overpass HTTP interaction outcome. -/
inductive OResp where
  | resp (code : ℕ) (elements : List OElement)
  | exn

/-- `shapely` `LineString` length: sum of the planar Euclidean lengths of
consecutive segments, in coordinate degrees. -/
noncomputable def lineLength : List (ℚ × ℚ) → ℝ
  | [] => 0
  | [_] => 0
  | p :: q :: rest =>
      Real.sqrt (((q.1 - p.1 : ℚ) : ℝ) ^ 2 + ((q.2 - p.2 : ℚ) : ℝ) ^ 2) +
        lineLength (q :: rest)

/-- `OSMProcessor.get_nearest_river_distance`
(`osm_processor.py` lines 35-79), parametrised by the opaque `shapely`
point-to-linestring distance `distFn` (in degrees) for the queried point.
Non-200 status → `5.0`; raised exception → `5.0`; no elements → `10.0`;
otherwise the minimum of `distFn(line) * 111` over elements having a
geometry of at least two nodes, rounded to 2 decimals — or `10.0` when no
element yields a candidate (the running minimum stays infinite). -/
noncomputable def get_nearest_river_distance (distFn : List (ℚ × ℚ) → ℝ)
    (r : OResp) : ℝ :=
  match r with
  | .exn => 5
  | .resp code elements =>
      if code ≠ 200 then 5
      else if elements = [] then 10
      else
        match ((elements.filterMap OElement.geometry).filter
                 (fun g => decide (2 ≤ g.length))).map (fun g => distFn g * 111) with
        | [] => 10
        | d :: ds => pyRound (ds.foldl min d) 2

/-- `OSMProcessor.get_drainage_density` (`osm_processor.py` lines 150-186):
non-200 status → `0.5`; raised exception → `0.5`; otherwise the total
`LineString` length (degrees × 111 = km) over elements with at least two
geometry nodes, normalised by the 10 km saturation constant, clamped at
1.0 and rounded to 2 decimals. -/
noncomputable def get_drainage_density (r : OResp) : ℝ :=
  match r with
  | .exn => 1 / 2
  | .resp code elements =>
      if code ≠ 200 then 1 / 2
      else
        let total := (((elements.filterMap OElement.geometry).filter
            (fun g => decide (2 ≤ g.length))).map (fun g => lineLength g * 111)).sum
        pyRound (min (total / 10) 1) 2

/-! ## Slope (`backend/data_sources/bhuvan_api.py`, `get_slope`) -/

/-- `BhuvanAPI.get_slope` (`bhuvan_api.py` lines 72-95) over an elevation
oracle `elev lat lon` (the cached `get_elevation` values): sample the four
offset points (`offset = radius / 111000` degrees), form the two
rise-over-run ratios with run `2 * radius` metres, and return the
arctangent of their maximum in degrees, rounded to 2 decimals.
(The centre elevation is also fetched by the code but unused.) -/
noncomputable def get_slope (elev : ℚ → ℚ → ℚ) (lat lon radius : ℚ) : ℝ :=
  let offset := radius / 111000
  let north := elev (lat + offset) lon
  let south := elev (lat - offset) lon
  let east := elev lat (lon + offset)
  let west := elev lat (lon - offset)
  let north_south_slope : ℚ := |north - south| / (2 * radius)
  let east_west_slope : ℚ := |east - west| / (2 * radius)
  pyRound (degrees (Real.arctan ((max north_south_slope east_west_slope : ℚ) : ℝ))) 2

/-- The slope formula as worded by the specification (§4.3 / claim C7):
`degrees(arctan(max(|elev(north)-elev(south)|/(2·radius_m),
|elev(east)-elev(west)|/(2·radius_m))))` with the four points offset by
`radius_m / 111000` degrees — stated without any output rounding. -/
noncomputable def slope_formula (elev : ℚ → ℚ → ℚ) (lat lon radius : ℚ) : ℝ :=
  let offset := radius / 111000
  let north := elev (lat + offset) lon
  let south := elev (lat - offset) lon
  let east := elev lat (lon + offset)
  let west := elev lat (lon - offset)
  let north_south_slope : ℚ := |north - south| / (2 * radius)
  let east_west_slope : ℚ := |east - west| / (2 * radius)
  degrees (Real.arctan ((max north_south_slope east_west_slope : ℚ) : ℝ))

/-! ## Helper lemmas on the rounding model -/

theorem roundHalfEven_eq {x : ℝ} (n : ℤ) (h1 : (n : ℝ) ≤ x) (h2 : x < n + 1 / 2) :
    roundHalfEven x = n := by
  have hf : ⌊x⌋ = n := Int.floor_eq_iff.mpr ⟨h1, by linarith⟩
  unfold roundHalfEven
  rw [hf, if_pos (by linarith)]

theorem roundHalfEven_nonneg {x : ℝ} (h : 0 ≤ x) : 0 ≤ roundHalfEven x := by
  have h0 : 0 ≤ ⌊x⌋ := Int.floor_nonneg.mpr h
  unfold roundHalfEven
  split_ifs <;> omega

theorem roundHalfEven_le {x : ℝ} (m : ℤ) (h : x ≤ m) : roundHalfEven x ≤ m := by
  have h0 : ⌊x⌋ ≤ m := by
    have := Int.floor_le_floor h
    rwa [Int.floor_intCast] at this
  have hfl : (⌊x⌋ : ℝ) ≤ x := Int.floor_le x
  unfold roundHalfEven
  split_ifs with hlt hgt heven
  · exact h0
  · have h1 : (⌊x⌋ : ℝ) < (m : ℝ) := by linarith
    have : ⌊x⌋ < m := by exact_mod_cast h1
    omega
  · exact h0
  · push_neg at hlt
    have h1 : (⌊x⌋ : ℝ) < (m : ℝ) := by linarith
    have : ⌊x⌋ < m := by exact_mod_cast h1
    omega

theorem pyRound_nonneg {x : ℝ} (nd : ℕ) (h : 0 ≤ x) : 0 ≤ pyRound x nd := by
  have h1 : (0 : ℝ) ≤ x * 10 ^ nd := mul_nonneg h (by positivity)
  have h2 := roundHalfEven_nonneg h1
  have h3 : (0 : ℝ) ≤ (roundHalfEven (x * 10 ^ nd) : ℝ) := by exact_mod_cast h2
  unfold pyRound
  exact div_nonneg h3 (by positivity)

theorem pyRound_le {x : ℝ} (nd : ℕ) (m : ℤ) (h : x ≤ (m : ℝ)) : pyRound x nd ≤ (m : ℝ) := by
  have h1 : x * 10 ^ nd ≤ ((m * 10 ^ nd : ℤ) : ℝ) := by
    push_cast
    exact mul_le_mul_of_nonneg_right h (by positivity)
  have h2 := roundHalfEven_le (m * 10 ^ nd) h1
  unfold pyRound
  rw [div_le_iff₀ (by positivity)]
  calc (roundHalfEven (x * 10 ^ nd) : ℝ) ≤ ((m * 10 ^ nd : ℤ) : ℝ) := by exact_mod_cast h2
  _ = (m : ℝ) * 10 ^ nd := by push_cast; ring

theorem pyRound_eq {x : ℝ} (nd : ℕ) (k : ℤ) (h1 : (k : ℝ) ≤ x * 10 ^ nd)
    (h2 : x * 10 ^ nd < k + 1 / 2) : pyRound x nd = (k : ℝ) / 10 ^ nd := by
  unfold pyRound
  rw [roundHalfEven_eq k h1 h2]

/-! ## C3 — cache correctness -/

/-- **C3** (confirmed). For every cached function and argument tuple (cache
key): a call while `now - stored_timestamp < expiry_hours * 3600` returns
exactly the stored value, leaves the store untouched and does not invoke
the wrapped function; a call on a missing key or at/after expiry invokes
the wrapped function, returns its result and stores `(result, now)`. -/
theorem cache_hit_and_expiry {α : Type} (store : String → Option (α × ℚ))
    (key : String) (now expiry_hours : ℚ) (func : Unit → α) :
    (∀ v ts, store key = some (v, ts) → now - ts < expiry_hours * 3600 →
      cacheWrapper expiry_hours store key now func = (v, store, false)) ∧
    ((∀ v ts, store key = some (v, ts) → expiry_hours * 3600 ≤ now - ts) →
      cacheWrapper expiry_hours store key now func =
        (func (), Function.update store key (some (func (), now)), true)) := by
  constructor
  · intro v ts hst hfresh
    unfold cacheWrapper
    rw [hst]
    simp [hfresh]
  · intro hexp
    unfold cacheWrapper
    cases hst : store key with
    | none => rfl
    | some p =>
        obtain ⟨v, ts⟩ := p
        have hge := hexp v ts hst
        simp [not_lt.mpr hge]

/-- Closed instance of `cache_hit_and_expiry`: a first call on an empty
store invokes the function and caches `(42, now)`. -/
theorem cache_hit_and_expiry_witness :
    cacheWrapper (1 : ℚ) (fun _ => (none : Option (ℚ × ℚ))) "k" 0 (fun _ => (42 : ℚ)) =
      (42, Function.update (fun _ => (none : Option (ℚ × ℚ))) "k" (some (42, 0)), true) :=
  (cache_hit_and_expiry (fun _ => (none : Option (ℚ × ℚ))) "k" 0 1 (fun _ => (42 : ℚ))).2
    (fun _ _ h => Option.noConfusion h)

/-! ## C6 — elevation-fallback zone rule -/

/-- **C6** (confirmed). In fallback mode the vulnerability zone is the step
function elevation<10→5, <30→4, <60→3, <100→2, else→1; it is non-increasing
in elevation; and the training-time `compute_ksdma_zones` implements
exactly the same step function as the serving-time fallback of
`KSDMAZones.get_vulnerability_zone`. -/
theorem zone_fallback_consistent :
    (∀ e : ℚ, zone e = get_vulnerability_zone_fallback e) ∧
    (∀ e : ℚ, (e < 10 → get_vulnerability_zone_fallback e = 5) ∧
      (10 ≤ e → e < 30 → get_vulnerability_zone_fallback e = 4) ∧
      (30 ≤ e → e < 60 → get_vulnerability_zone_fallback e = 3) ∧
      (60 ≤ e → e < 100 → get_vulnerability_zone_fallback e = 2) ∧
      (100 ≤ e → get_vulnerability_zone_fallback e = 1)) ∧
    (∀ e1 e2 : ℚ, e1 ≤ e2 →
      get_vulnerability_zone_fallback e2 ≤ get_vulnerability_zone_fallback e1) ∧
    (∀ l : List ℚ, compute_ksdma_zones l = l.map get_vulnerability_zone_fallback) := by
  refine ⟨fun e => rfl, fun e => ?_, fun e1 e2 h => ?_, fun l => rfl⟩
  · unfold get_vulnerability_zone_fallback
    refine ⟨?_, ?_, ?_, ?_, ?_⟩ <;> intros <;> split_ifs <;> first | rfl | linarith
  · unfold get_vulnerability_zone_fallback
    split_ifs <;> linarith

/-- Closed instance of `zone_fallback_consistent`: the table rows of the
claim (elevation 5 → zone 5, 45 → 3, 150 → 1) and one monotonicity
instance. -/
theorem zone_fallback_consistent_witness :
    get_vulnerability_zone_fallback 5 = 5 ∧
    get_vulnerability_zone_fallback 45 = 3 ∧
    get_vulnerability_zone_fallback 150 = 1 ∧
    get_vulnerability_zone_fallback 150 ≤ get_vulnerability_zone_fallback 5 :=
  ⟨(zone_fallback_consistent.2.1 5).1 (by norm_num),
   (zone_fallback_consistent.2.1 45).2.2.1 (by norm_num) (by norm_num),
   (zone_fallback_consistent.2.1 150).2.2.2.2 (by norm_num),
   zone_fallback_consistent.2.2.1 5 150 (by norm_num)⟩

/-! ## C5 — flood count consistency -/

/-- **C5** is false as stated: in polygon mode `get_flood_frequency` counts
every containing footprint feature, so with four containing polygons
`total_events = 4` while the three per-year flags of
`get_flood_events_detail` sum to `3`. -/
theorem flood_count_counterexample :
    (get_flood_events_detail (get_flood_frequency_polygon [true, true, true, true])).total_events
        = 4 ∧
    flagVal (get_flood_events_detail
        (get_flood_frequency_polygon [true, true, true, true])).flooded_2018 +
      flagVal (get_flood_events_detail
        (get_flood_frequency_polygon [true, true, true, true])).flooded_2019 +
      flagVal (get_flood_events_detail
        (get_flood_frequency_polygon [true, true, true, true])).flooded_2021 = 3 ∧
    (4 : ℕ) ≠ 3 := by
  decide

/-- **C5** (amended). `flood_history_count` equals the sum of the three
per-year binary flags provided at most three footprint features contain the
point (in particular with one footprint per flood year); the equality holds
unconditionally in fallback mode and in the raster pipeline's derived
column; and in every mode `flood_history = 1` iff the flood frequency is
positive. -/
theorem flood_count_consistency :
    (∀ contains : List Bool, get_flood_frequency_polygon contains ≤ 3 →
      (get_flood_events_detail (get_flood_frequency_polygon contains)).total_events =
        flagVal (get_flood_events_detail (get_flood_frequency_polygon contains)).flooded_2018 +
        flagVal (get_flood_events_detail (get_flood_frequency_polygon contains)).flooded_2019 +
        flagVal (get_flood_events_detail (get_flood_frequency_polygon contains)).flooded_2021) ∧
    (∀ contains : List Bool,
      get_flood_history (get_flood_frequency_polygon contains) = 1 ↔
        0 < get_flood_frequency_polygon contains) ∧
    (∀ (e : ℚ) (z : ℤ),
      (get_flood_events_detail (get_flood_frequency_fallback e z)).total_events =
        flagVal (get_flood_events_detail (get_flood_frequency_fallback e z)).flooded_2018 +
        flagVal (get_flood_events_detail (get_flood_frequency_fallback e z)).flooded_2019 +
        flagVal (get_flood_events_detail (get_flood_frequency_fallback e z)).flooded_2021) ∧
    (∀ (e : ℚ) (z : ℤ),
      get_flood_history (get_flood_frequency_fallback e z) = 1 ↔
        0 < get_flood_frequency_fallback e z) ∧
    (∀ f2018 f2019 f2021 : ℕ,
      flood_history_count f2018 f2019 f2021 = f2018 + f2019 + f2021) := by
  have hdetail : ∀ c : ℕ, c ≤ 3 →
      (get_flood_events_detail c).total_events =
        flagVal (get_flood_events_detail c).flooded_2018 +
        flagVal (get_flood_events_detail c).flooded_2019 +
        flagVal (get_flood_events_detail c).flooded_2021 := by
    intro c hc
    interval_cases c <;> decide
  have hhist : ∀ c : ℕ, get_flood_history c = 1 ↔ 0 < c := by
    intro c
    unfold get_flood_history
    split_ifs with h <;> simp [h]
  refine ⟨fun contains h => hdetail _ h, fun contains => hhist _, fun e z => ?_,
    fun e z => hhist _, fun _ _ _ => rfl⟩
  · unfold get_flood_frequency_fallback
    split_ifs <;> decide

/-- Closed instance of `flood_count_consistency`: two containing footprints
give `total_events = 2 = 1 + 1 + 0`. -/
theorem flood_count_consistency_witness :
    (get_flood_events_detail (get_flood_frequency_polygon [true, false, true])).total_events =
      flagVal (get_flood_events_detail
        (get_flood_frequency_polygon [true, false, true])).flooded_2018 +
      flagVal (get_flood_events_detail
        (get_flood_frequency_polygon [true, false, true])).flooded_2019 +
      flagVal (get_flood_events_detail
        (get_flood_frequency_polygon [true, false, true])).flooded_2021 :=
  flood_count_consistency.1 [true, false, true] (by decide)

/-! ## C8 — out-of-bounds raster exclusion -/

theorem is_flooded_none_oob (rasters : List Raster) (tr : Affine) (lon lat : ℚ)
    (R C : ℕ) (hne : rasters ≠ [])
    (hdims : ∀ r ∈ rasters, r.rows = R ∧ r.cols = C)
    (hout : ¬ (0 ≤ (point_to_pixel tr lon lat).1 ∧ (point_to_pixel tr lon lat).1 < (R : ℤ) ∧
      0 ≤ (point_to_pixel tr lon lat).2 ∧ (point_to_pixel tr lon lat).2 < (C : ℤ))) :
    is_flooded rasters tr lon lat = none := by
  cases rasters with
  | nil => exact absurd rfl hne
  | cons r rest =>
      have hd := hdims r (List.mem_cons_self r rest)
      simp only [is_flooded, hd.1, hd.2]
      rw [if_neg hout]

theorem is_flooded_false_iff_all_zero (rasters : List Raster) (tr : Affine) (lon lat : ℚ)
    (R C : ℕ) (hdims : ∀ r ∈ rasters, r.rows = R ∧ r.cols = C)
    (hin : 0 ≤ (point_to_pixel tr lon lat).1 ∧ (point_to_pixel tr lon lat).1 < (R : ℤ) ∧
      0 ≤ (point_to_pixel tr lon lat).2 ∧ (point_to_pixel tr lon lat).2 < (C : ℤ)) :
    is_flooded rasters tr lon lat = some false ↔
      ∀ r ∈ rasters, r.pix (point_to_pixel tr lon lat).1 (point_to_pixel tr lon lat).2 = 0 := by
  induction rasters with
  | nil => simp [is_flooded]
  | cons r rest ih =>
      have hd := hdims r (List.mem_cons_self r rest)
      have hrest : ∀ r ∈ rest, r.rows = R ∧ r.cols = C :=
        fun q hq => hdims q (List.mem_cons_of_mem r hq)
      simp only [is_flooded, hd.1, hd.2]
      rw [if_pos hin]
      by_cases hp : 0 < r.pix (point_to_pixel tr lon lat).1 (point_to_pixel tr lon lat).2
      · rw [if_pos hp]
        simp [Nat.pos_iff_ne_zero.mp hp]
      · rw [if_neg hp]
        have hz : r.pix (point_to_pixel tr lon lat).1 (point_to_pixel tr lon lat).2 = 0 := by
          omega
        rw [ih hrest]
        simp [hz]

/-- **C8** (confirmed). Any randomly sampled point whose truncated
`(row, col)` under the shared affine transform falls outside the (common)
raster bounds makes `is_flooded` return `None`, so the sampling loop never
appends it — in particular never as a "Low" sample; and a point is appended
(as a "Low"-risk record with all per-year flags 0) exactly when it is in
bounds and its pixel value is 0 in all three year rasters. -/
theorem oob_excluded_from_training (rasters : List Raster) (tr : Affine) (lon lat : ℚ)
    (R C : ℕ) (hne : rasters ≠ []) (hdims : ∀ r ∈ rasters, r.rows = R ∧ r.cols = C) :
    (¬ (0 ≤ (point_to_pixel tr lon lat).1 ∧ (point_to_pixel tr lon lat).1 < (R : ℤ) ∧
        0 ≤ (point_to_pixel tr lon lat).2 ∧ (point_to_pixel tr lon lat).2 < (C : ℤ)) →
      acceptPoint rasters tr lon lat = false) ∧
    (acceptPoint rasters tr lon lat = true ↔
      ((0 ≤ (point_to_pixel tr lon lat).1 ∧ (point_to_pixel tr lon lat).1 < (R : ℤ) ∧
        0 ≤ (point_to_pixel tr lon lat).2 ∧ (point_to_pixel tr lon lat).2 < (C : ℤ)) ∧
       ∀ r ∈ rasters,
         r.pix (point_to_pixel tr lon lat).1 (point_to_pixel tr lon lat).2 = 0)) ∧
    (nonFloodSample lat lon).risk = "Low" ∧
    (nonFloodSample lat lon).flood_history_count = 0 := by
  refine ⟨fun hout => ?_, ?_, rfl, rfl⟩
  · have hn := is_flooded_none_oob rasters tr lon lat R C hne hdims hout
    simp [acceptPoint, hn]
  · by_cases hin : 0 ≤ (point_to_pixel tr lon lat).1 ∧
        (point_to_pixel tr lon lat).1 < (R : ℤ) ∧
        0 ≤ (point_to_pixel tr lon lat).2 ∧ (point_to_pixel tr lon lat).2 < (C : ℤ)
    · have := is_flooded_false_iff_all_zero rasters tr lon lat R C hdims hin
      simp [acceptPoint, this, hin]
    · have hn := is_flooded_none_oob rasters tr lon lat R C hne hdims hin
      simp [acceptPoint, hn, hin]

/-- Closed instance of `oob_excluded_from_training`: with two aligned 2×2
zero rasters and the identity-style transform, the point `(lon, lat) = (5, 0)`
maps to pixel `(0, 5)`, is out of bounds and is rejected, while `(1, 1)`
maps in bounds with pixel value 0 and is accepted. -/
theorem oob_excluded_from_training_witness :
    acceptPoint [⟨2, 2, fun _ _ => 0⟩, ⟨2, 2, fun _ _ => 0⟩] ⟨1, 0, 0, 0, 1, 0⟩ 5 0 = false ∧
    acceptPoint [⟨2, 2, fun _ _ => 0⟩, ⟨2, 2, fun _ _ => 0⟩] ⟨1, 0, 0, 0, 1, 0⟩ 1 1 = true := by
  constructor
  · exact (oob_excluded_from_training
      [⟨2, 2, fun _ _ => 0⟩, ⟨2, 2, fun _ _ => 0⟩] ⟨1, 0, 0, 0, 1, 0⟩ 5 0 2 2
      (by simp) (by intro r hr; fin_cases hr <;> exact ⟨rfl, rfl⟩)).1
      (by norm_num [point_to_pixel, truncQ])
  · exact (oob_excluded_from_training
      [⟨2, 2, fun _ _ => 0⟩, ⟨2, 2, fun _ _ => 0⟩] ⟨1, 0, 0, 0, 1, 0⟩ 1 1 2 2
      (by simp) (by intro r hr; fin_cases hr <;> exact ⟨rfl, rfl⟩)).2.1.mpr
      ⟨by norm_num [point_to_pixel, truncQ], by intro r hr; fin_cases hr <;> rfl⟩

/-! ## C1 / C2 — batched elevation fetching -/

theorem retry_agrees (r : HttpResp) (h : agreeableResp r) :
    (match retry_point_update r with
     | some v => v
     | none => (50 : ℚ)) = get_elevation r := by
  cases r with
  | exn => rfl
  | resp code body =>
      by_cases hc : code = 200
      · subst hc
        obtain ⟨l, hb, hl⟩ := h rfl
        subst hb
        cases l with
        | nil => simp [retry_point_update, get_elevation]
        | cons e rest =>
            cases e with
            | none => simp [retry_point_update, get_elevation]
            | some v =>
                have hv : ¬ v = 0 := fun h0 => hl (by simp [h0])
                simp [retry_point_update, get_elevation, hv]
      · simp [retry_point_update, get_elevation, hc]

theorem batchValues_get_200 (prov : ElevProvider) (bIdx start cnt j : ℕ)
    (body : Option (List (Option ℚ)))
    (hb : prov.batch bIdx = .resp 200 body) (hj : j < cnt) :
    (batchValues prov bIdx start cnt)[j]? =
      some (match (body.getD [])[j]? with
            | some (some v) => v
            | _ => 50) := by
  unfold batchValues
  rw [hb]
  simp [List.getElem?_map, List.getElem?_range hj]
  rfl

theorem batchValues_get_414 (prov : ElevProvider) (bIdx start cnt j : ℕ)
    (body : Option (List (Option ℚ)))
    (hb : prov.batch bIdx = .resp 414 body) (hj : j < cnt) :
    (batchValues prov bIdx start cnt)[j]? =
      some (match retry_point_update (prov.single (start + j)) with
            | some v => v
            | none => 50) := by
  unfold batchValues
  rw [hb]
  simp [List.getElem?_map, List.getElem?_range hj]

theorem batchValues_length (prov : ElevProvider) (bIdx start cnt : ℕ) :
    (batchValues prov bIdx start cnt).length = cnt := by
  unfold batchValues
  cases prov.batch bIdx with
  | exn => simp
  | resp code body =>
      by_cases h1 : code = 200
      · simp [h1]
      · by_cases h2 : code = 414
        · simp [h1, h2]
        · simp [h1, h2]

theorem sum_batch_sizes (bs : ℕ) (hbs : 0 < bs) (n : ℕ) :
    ((List.range ((n + bs - 1) / bs)).map (fun i => min bs (n - i * bs))).sum = n := by
  induction n using Nat.strong_induction_on with
  | _ n ih =>
    rcases Nat.eq_zero_or_pos n with hn | hn
    · subst hn
      have h0 : (0 + bs - 1) / bs = 0 := Nat.div_eq_of_lt (by omega)
      simp [h0]
    · rcases le_or_lt n bs with hnb | hnb
      · have h1 : (n + bs - 1) / bs = 1 :=
          Nat.div_eq_of_lt_le (by omega) (by omega)
        rw [h1, show List.range 1 = [0] from rfl, List.map_cons, List.map_nil,
          List.sum_cons, List.sum_nil]
        omega
      · have h2 : (n + bs - 1) / bs = (n - bs + bs - 1) / bs + 1 := by
          have he : n + bs - 1 = (n - bs + bs - 1) + bs := by omega
          rw [he, Nat.add_div_right _ hbs]
        rw [h2, List.range_succ_eq_map]
        simp only [List.map_cons, List.sum_cons, List.map_map]
        have hmap : ((List.range ((n - bs + bs - 1) / bs)).map
            ((fun i => min bs (n - i * bs)) ∘ Nat.succ)) =
            (List.range ((n - bs + bs - 1) / bs)).map (fun i => min bs (n - bs - i * bs)) := by
          apply List.map_congr_left
          intro i hi
          simp only [Function.comp_apply]
          have hsm : Nat.succ i * bs = i * bs + bs := Nat.succ_mul i bs
          rw [hsm]
          generalize i * bs = t
          omega
        rw [hmap, ih (n - bs) (by omega)]
        have hmin : min bs (n - 0 * bs) = bs := by
          rw [Nat.zero_mul, Nat.sub_zero]
          exact min_eq_left (le_of_lt hnb)
        rw [hmin]
        omega

/-- **C1** (amended). The single-point `get_elevation` and the batched
`fetch_elevations_batch` agree for a coordinate, given identical underlying
provider responses, (a) whenever the 200 batch body explicitly lists the
coordinate's entry (a number is taken verbatim, `null` becomes the same
50.0 default the single path produces), (b) in the 414 branch whenever the
shared per-point response is a failure or a 200 response that carries the
elevation key and whose value is not `0.0`, and (c) on every other batch
failure, where both paths produce 50.0.  (They diverge exactly on a 200
response lacking the elevation key and on a 414-retry value of `0.0` —
see the counterexample.) -/
theorem elevation_batch_single_equiv :
    (∀ (prov : ElevProvider) (bIdx start cnt j : ℕ) (vs : List (Option ℚ)) (ej : Option ℚ),
      prov.batch bIdx = .resp 200 (some vs) → vs[j]? = some ej → j < cnt →
      (batchValues prov bIdx start cnt)[j]? =
        some (get_elevation (.resp 200 (some [ej])))) ∧
    (∀ (prov : ElevProvider) (bIdx start cnt j : ℕ) (body : Option (List (Option ℚ))),
      prov.batch bIdx = .resp 414 body → j < cnt →
      agreeableResp (prov.single (start + j)) →
      (batchValues prov bIdx start cnt)[j]? =
        some (get_elevation (prov.single (start + j)))) ∧
    (∀ (prov : ElevProvider) (bIdx start cnt j code : ℕ)
        (body : Option (List (Option ℚ))),
      prov.batch bIdx = .resp code body → code ≠ 200 → code ≠ 414 → j < cnt →
      (batchValues prov bIdx start cnt)[j]? = some 50 ∧
        get_elevation (.resp code body) = 50) ∧
    (∀ (prov : ElevProvider) (bIdx start cnt j : ℕ),
      prov.batch bIdx = .exn → j < cnt →
      (batchValues prov bIdx start cnt)[j]? = some 50 ∧ get_elevation .exn = 50) := by
  refine ⟨?_, ?_, ?_, ?_⟩
  · intro prov bIdx start cnt j vs ej hb hv hj
    rw [batchValues_get_200 prov bIdx start cnt j (some vs) hb hj]
    simp only [Option.getD_some, hv]
    cases ej <;> simp [get_elevation]
  · intro prov bIdx start cnt j body hb hj hag
    rw [batchValues_get_414 prov bIdx start cnt j body hb hj,
      retry_agrees _ hag]
  · intro prov bIdx start cnt j code body hb hc200 hc414 hj
    constructor
    · unfold batchValues
      rw [hb]
      simp [hc200, hc414, List.getElem?_replicate, hj]
    · simp [get_elevation, hc200]
  · intro prov bIdx start cnt j hb hj
    constructor
    · unfold batchValues
      rw [hb]
      simp [List.getElem?_replicate, hj]
    · rfl

/-- Closed instance of `elevation_batch_single_equiv`: the 414 per-point
retry records exactly the single-point value for a 200 response with the
non-zero value 7.0. -/
theorem elevation_batch_single_equiv_witness :
    (batchValues ⟨fun _ => .resp 414 none, fun _ => .resp 200 (some [some 7])⟩ 0 0 1)[0]? =
      some (get_elevation (.resp 200 (some [some 7]))) :=
  elevation_batch_single_equiv.2.1
    ⟨fun _ => .resp 414 none, fun _ => .resp 200 (some [some 7])⟩ 0 0 1 0 none rfl
    (by norm_num) (fun _ => ⟨[some 7], rfl, by decide⟩)

/-- **C1** is false as stated: with identical underlying provider
responses — the per-point GET for the coordinate returns HTTP 200 with
elevation value `0.0` in both scenarios — the batched path (batch request
answered 414, per-point retry answered 200/`[0.0]`) records the default
`50.0` because of the truthiness test `float(v) if v else 50.0`, while the
single-point path returns `0.0`. -/
theorem elevation_batch_single_counterexample :
    batchValues ⟨fun _ => .resp 414 none, fun _ => .resp 200 (some [some 0])⟩ 0 0 1 = [50] ∧
    get_elevation (.resp 200 (some [some 0])) = 0 ∧ (50 : ℚ) ≠ 0 := by
  refine ⟨by decide, by decide, by norm_num⟩

/-- **C2** (amended). Only the HTTP 414 (exceeded-URL-length) batch failure
triggers per-point retries; any other non-success status and any raised
exception (e.g. timeout) make every coordinate of the failed batch keep the
default 50.0 directly, with no per-point retry; in the 414 branch a failing
per-point retry (non-200 status or exception) leaves the 50.0 default; and
batched fetching is total — it always returns exactly one value per input
coordinate, so the enrichment pipeline never fails for lack of elevation
data. -/
theorem batch_failure_fallback :
    (∀ (prov : ElevProvider) (bIdx start cnt code : ℕ)
        (body : Option (List (Option ℚ))),
      prov.batch bIdx = .resp code body → code ≠ 200 → code ≠ 414 →
      batchValues prov bIdx start cnt = List.replicate cnt 50) ∧
    (∀ (prov : ElevProvider) (bIdx start cnt : ℕ),
      prov.batch bIdx = .exn → batchValues prov bIdx start cnt = List.replicate cnt 50) ∧
    (∀ (prov : ElevProvider) (bIdx start cnt j : ℕ) (body : Option (List (Option ℚ))),
      prov.batch bIdx = .resp 414 body → j < cnt →
      retry_point_update (prov.single (start + j)) = none →
      (batchValues prov bIdx start cnt)[j]? = some 50) ∧
    (∀ r : HttpResp,
      (r = .exn ∨ ∃ (code : ℕ) (body : Option (List (Option ℚ))),
        r = .resp code body ∧ code ≠ 200) →
      retry_point_update r = none) ∧
    (∀ (prov : ElevProvider) (bIdx start cnt : ℕ),
      (batchValues prov bIdx start cnt).length = cnt) ∧
    (∀ (prov : ElevProvider) (bs n : ℕ), 0 < bs →
      (fetch_elevations_batch prov bs n).length = n) := by
  refine ⟨?_, ?_, ?_, ?_, batchValues_length, ?_⟩
  · intro prov bIdx start cnt code body hb hc200 hc414
    unfold batchValues
    rw [hb]
    simp [hc200, hc414]
  · intro prov bIdx start cnt hb
    unfold batchValues
    rw [hb]
  · intro prov bIdx start cnt j body hb hj hnone
    rw [batchValues_get_414 prov bIdx start cnt j body hb hj, hnone]
  · intro r hr
    rcases hr with hr | ⟨code, body, hr, hc⟩
    · subst hr; rfl
    · subst hr
      simp [retry_point_update, hc]
  · intro prov bs n hbs
    unfold fetch_elevations_batch
    rw [List.length_flatten]
    simp only [List.map_map]
    have hcomp : (List.length ∘ fun i => batchValues prov i (i * bs) (min bs (n - i * bs))) =
        fun i => min bs (n - i * bs) := by
      funext i
      simp [batchValues_length]
    rw [hcomp]
    exact sum_batch_sizes bs hbs n

/-- Closed instance of `batch_failure_fallback`: an HTTP 500 batch records
the default 50.0 for both coordinates of the batch. -/
theorem batch_failure_fallback_witness :
    batchValues ⟨fun _ => .resp 500 none, fun _ => .resp 200 (some [some 7])⟩ 0 0 2 =
      List.replicate 2 50 :=
  batch_failure_fallback.1 ⟨fun _ => .resp 500 none, fun _ => .resp 200 (some [some 7])⟩
    0 0 2 500 none rfl (by norm_num) (by norm_num)

/-- **C2** is false as stated: on a non-414 batch failure (here HTTP 500)
no per-point retry is attempted — the per-point retry would deliver 7.0,
but every coordinate of the failed batch records the default 50.0
directly. -/
theorem batch_failure_fallback_counterexample :
    batchValues ⟨fun _ => .resp 500 none, fun _ => .resp 200 (some [some 7])⟩ 0 0 1 = [50] ∧
    (match retry_point_update (.resp 200 (some [some 7])) with
     | some v => v
     | none => (50 : ℚ)) = 7 ∧
    (50 : ℚ) ≠ 7 :=
  ⟨by decide, by decide, by norm_num⟩

/-! ## C9 — empty-prefilter fallbacks of the training waterway queries -/

/-- **C9** (confirmed). When no waterway node lies within the local
bounding prefilter — the `±0.5°` box for the river distance, the
`±(radius_km/111)·1.5°` box for the drainage density — the recorded river
distance is the fixed fallback 10.0 km and the recorded drainage density
is 0. -/
theorem empty_prefilter_fallbacks (nodes : List (ℚ × ℚ)) (lat lon radius_km : ℚ) :
    (nodes.filter (fun node =>
        decide (|node.2 - lat| < 1 / 2 ∧ |node.1 - lon| < 1 / 2)) = [] →
      river_distance_point nodes lat lon = 10) ∧
    (nodes.filter (fun node =>
        decide (|node.2 - lat| < radius_km / 111 * (3 / 2) ∧
          |node.1 - lon| < radius_km / 111 * (3 / 2))) = [] →
      compute_drainage_density_point nodes lat lon radius_km = 0) := by
  constructor
  · intro h
    unfold river_distance_point
    rw [h]
  · intro h
    simp only [compute_drainage_density_point]
    rw [h]
    simp

/-- Closed instance of `empty_prefilter_fallbacks` at Kochi (9.93, 76.27)
with the only waterway node far outside both prefilter boxes. -/
theorem empty_prefilter_fallbacks_witness :
    river_distance_point [(80, 30)] (993 / 100) (7627 / 100) = 10 ∧
    compute_drainage_density_point [(80, 30)] (993 / 100) (7627 / 100) 1 = 0 :=
  ⟨(empty_prefilter_fallbacks [(80, 30)] (993 / 100) (7627 / 100) 1).1
     (by norm_num [List.filter_cons, abs_of_nonneg]),
   (empty_prefilter_fallbacks [(80, 30)] (993 / 100) (7627 / 100) 1).2
     (by norm_num [List.filter_cons, abs_of_nonneg])⟩

/-! ## C10 — serving-side river distance failure branches -/

/-- **C10** (confirmed). `get_nearest_river_distance` returns 5.0 km on any
failed Overpass interaction (non-200 status or raised exception, including
timeout) and 10.0 km on a successful query with no waterway elements; the
API-failure constant differs from the empty-result fallback (5 ≠ 10), and
the function is total — every branch returns a value, nothing escapes. -/
theorem river_distance_failure_branches (distFn : List (ℚ × ℚ) → ℝ) :
    (∀ (code : ℕ) (elements : List OElement), code ≠ 200 →
      get_nearest_river_distance distFn (.resp code elements) = 5) ∧
    get_nearest_river_distance distFn .exn = 5 ∧
    get_nearest_river_distance distFn (.resp 200 []) = 10 ∧
    (5 : ℝ) ≠ 10 := by
  refine ⟨?_, rfl, ?_, by norm_num⟩
  · intro code elements hc
    unfold get_nearest_river_distance
    simp [hc]
  · unfold get_nearest_river_distance
    simp

/-- Closed instance of `river_distance_failure_branches`: HTTP 500 yields
the failure constant. -/
theorem river_distance_failure_branches_witness :
    get_nearest_river_distance (fun _ => 0) (.resp 500 []) = 5 :=
  (river_distance_failure_branches (fun _ => 0)).1 500 [] (by norm_num)

/-! ## C4 — drainage-density normalisation, serving vs training -/

theorem lineLength_nonneg (l : List (ℚ × ℚ)) : 0 ≤ lineLength l := by
  induction l with
  | nil => simp [lineLength]
  | cons p rest ih =>
      cases rest with
      | nil => simp [lineLength]
      | cons q rest2 =>
          rw [lineLength]
          exact add_nonneg (Real.sqrt_nonneg _) ih

/-- **C4** is false as stated: the two densities are different functions of
the same local waterway data.  One waterway of two nodes 0.01° of latitude
apart (≈1.11 km of channel) through the analysis neighbourhood of the
point (10, 76): the serving-side `get_drainage_density` computes
min(1.11/10, 1) rounded to 0.11, while the training-side
`compute_drainage_density` computes one node within 1 km haversine
distance, min(1/100, 1) = 0.01. -/
theorem drainage_density_counterexample :
    get_drainage_density
        (.resp 200 [⟨some [(76, 10), (76, 1001 / 100)]⟩]) = 11 / 100 ∧
    compute_drainage_density_point [(76, 10), (76, 1001 / 100)] 10 76 1 = 1 / 100 ∧
    (11 / 100 : ℝ) ≠ 1 / 100 := by
  refine ⟨?_, ?_, by norm_num⟩
  · have hlen : lineLength [((76 : ℚ), (10 : ℚ)), ((76 : ℚ), (1001 / 100 : ℚ))] = 1 / 100 := by
      rw [lineLength, lineLength]
      push_cast
      norm_num
      rw [show (10000 : ℝ) = 100 ^ 2 by norm_num, Real.sqrt_sq (by norm_num : (0 : ℝ) ≤ 100)]
      norm_num
    simp only [get_drainage_density]
    norm_num
    rw [show List.filterMap OElement.geometry
        [OElement.mk (some [((76 : ℚ), (10 : ℚ)), ((76 : ℚ), (1001 / 100 : ℚ))])] =
        [[((76 : ℚ), (10 : ℚ)), ((76 : ℚ), (1001 / 100 : ℚ))]] from rfl]
    norm_num [List.filter_cons]
    rw [hlen]
    rw [show ((1 : ℝ) / 100 * 111 / 10) = 111 / 1000 by norm_num]
    rw [show min ((111 : ℝ) / 1000) 1 = 111 / 1000 from min_eq_left (by norm_num)]
    rw [pyRound_eq 2 11 (by norm_num) (by norm_num)]
    norm_num
  · have h0 : haversine_km 10 76 ((76 : ℚ), (10 : ℚ)) ≤ 1 := by
      simp [haversine_km, radians]
    have hfar : ¬ (haversine_km 10 76 ((76 : ℚ), (1001 / 100 : ℚ)) ≤ 1) := by
      have hh : haversine_km 10 76 ((76 : ℚ), (1001 / 100 : ℚ)) =
          6371 * 2 * Real.arcsin (Real.sqrt (Real.sin (Real.pi / 36000) ^ 2)) := by
        simp only [haversine_km, radians]
        push_cast
        norm_num
        ring_nf
      rw [hh]
      have h1 : (0 : ℝ) ≤ Real.pi / 36000 := by positivity
      have h2 : Real.pi / 36000 ≤ Real.pi := by linarith [Real.pi_pos]
      rw [Real.sqrt_sq (Real.sin_nonneg_of_nonneg_of_le_pi h1 h2)]
      rw [Real.arcsin_sin (by linarith [Real.pi_pos]) (by linarith [Real.pi_pos])]
      push_neg
      nlinarith [Real.pi_gt_three]
    simp only [compute_drainage_density_point]
    have hfil : List.filter (fun node : ℚ × ℚ =>
        decide (|node.2 - 10| < (1 : ℚ) / 111 * (3 / 2) ∧
          |node.1 - 76| < (1 : ℚ) / 111 * (3 / 2)))
        [(76, 10), (76, 1001 / 100)] = [(76, 10), (76, 1001 / 100)] := by
      norm_num [List.filter_cons, abs_of_nonneg]
    rw [hfil]
    rw [if_neg (by simp : ¬([((76 : ℚ), (10 : ℚ)), ((76 : ℚ), (1001 / 100 : ℚ))] = []))]
    have hcnt : List.countP (fun node => decide (haversine_km 10 76 node ≤ ((1 : ℚ) : ℝ)))
        [((76 : ℚ), (10 : ℚ)), ((76 : ℚ), (1001 / 100 : ℚ))] = 1 := by
      rw [List.countP_cons, List.countP_cons, List.countP_nil]
      have d0 : decide (haversine_km 10 76 ((76 : ℚ), (10 : ℚ)) ≤ ((1 : ℚ) : ℝ)) = true := by
        rw [decide_eq_true_eq]
        push_cast
        exact h0
      have dfar : decide (haversine_km 10 76 ((76 : ℚ), (1001 / 100 : ℚ)) ≤ ((1 : ℚ) : ℝ))
          = false := by
        rw [decide_eq_false_iff_not]
        push_cast
        exact hfar
      rw [d0, dfar]
      norm_num
    rw [hcnt]
    rw [show min (((1 : ℕ) : ℝ) / 100) 1 = 1 / 100 by norm_num]
    rw [pyRound_eq 3 10 (by norm_num) (by norm_num)]
    norm_num

/-- **C4** (amended).  The serving-side and training-side drainage
densities are not one shared rule: `OSMProcessor.get_drainage_density`
saturates the total waterway length at 10 km while the training-side
`compute_drainage_density` saturates the nearby-node count at 100 (see the
counterexample).  What does hold of both: every value either of them
produces — on every branch, the failure fallbacks included — lies in the
claimed interval [0, 1]. -/
theorem drainage_density_range :
    (∀ r : OResp, 0 ≤ get_drainage_density r ∧ get_drainage_density r ≤ 1) ∧
    (∀ (nodes : List (ℚ × ℚ)) (lat lon radius_km : ℚ),
      0 ≤ compute_drainage_density_point nodes lat lon radius_km ∧
      compute_drainage_density_point nodes lat lon radius_km ≤ 1) := by
  constructor
  · intro r
    cases r with
    | exn => exact ⟨by norm_num [get_drainage_density], by norm_num [get_drainage_density]⟩
    | resp code elements =>
        simp only [get_drainage_density]
        split_ifs with h
        · norm_num
        · have htnn : 0 ≤ (((elements.filterMap OElement.geometry).filter
              (fun g => decide (2 ≤ g.length))).map (fun g => lineLength g * 111)).sum := by
            apply List.sum_nonneg
            intro x hx
            simp only [List.mem_map] at hx
            obtain ⟨g, hg, rfl⟩ := hx
            exact mul_nonneg (lineLength_nonneg g) (by norm_num)
          have hmin0 : (0 : ℝ) ≤ min ((((elements.filterMap OElement.geometry).filter
              (fun g => decide (2 ≤ g.length))).map (fun g => lineLength g * 111)).sum / 10) 1 :=
            le_min (by positivity) (by norm_num)
          have hmin1 : min ((((elements.filterMap OElement.geometry).filter
              (fun g => decide (2 ≤ g.length))).map (fun g => lineLength g * 111)).sum / 10) 1
              ≤ 1 := min_le_right _ _
          refine ⟨pyRound_nonneg 2 hmin0, ?_⟩
          have hle := pyRound_le 2 1 (by exact_mod_cast hmin1)
          exact_mod_cast hle
  · intro nodes lat lon radius_km
    simp only [compute_drainage_density_point]
    split_ifs with h
    · norm_num
    · have hmin0 : (0 : ℝ) ≤ min
          (((nodes.filter (fun node =>
            decide (|node.2 - lat| < radius_km / 111 * (3 / 2) ∧
              |node.1 - lon| < radius_km / 111 * (3 / 2)))).countP
            (fun node => decide (haversine_km lat lon node ≤ (radius_km : ℝ))) : ℝ) / 100) 1 :=
        le_min (by positivity) (by norm_num)
      have hmin1 : min
          (((nodes.filter (fun node =>
            decide (|node.2 - lat| < radius_km / 111 * (3 / 2) ∧
              |node.1 - lon| < radius_km / 111 * (3 / 2)))).countP
            (fun node => decide (haversine_km lat lon node ≤ (radius_km : ℝ))) : ℝ) / 100) 1
          ≤ 1 := min_le_right _ _
      refine ⟨pyRound_nonneg 3 hmin0, ?_⟩
      have hle := pyRound_le 3 1 (by exact_mod_cast hmin1)
      exact_mod_cast hle

/-! ## C7 — slope determinism, range, and formula -/

theorem slope_val_mem {q : ℚ} (hq : 0 ≤ q) :
    0 ≤ pyRound (degrees (Real.arctan (q : ℝ))) 2 ∧
    pyRound (degrees (Real.arctan (q : ℝ))) 2 ≤ 90 := by
  constructor
  · apply pyRound_nonneg
    unfold degrees
    apply div_nonneg _ Real.pi_pos.le
    apply mul_nonneg _ (by norm_num)
    rw [← Real.arctan_zero]
    exact Real.arctan_strictMono.monotone (by exact_mod_cast hq)
  · have h90 : degrees (Real.arctan (q : ℝ)) ≤ ((90 : ℤ) : ℝ) := by
      unfold degrees
      rw [div_le_iff₀ Real.pi_pos]
      push_cast
      nlinarith [Real.arctan_lt_pi_div_two ((q : ℚ) : ℝ), Real.pi_pos]
    have hle := pyRound_le 2 90 h90
    exact_mod_cast hle

/-- **C7** (amended). For fixed elevation inputs `get_slope` is
deterministic (it depends only on the four offset samples), returns a value
in [0, 90] degrees for any positive radius, returns 0 on flat terrain, and
computes exactly the 2-decimal rounding of
`degrees(arctan(max(|elev(N)-elev(S)|/(2·radius), |elev(E)-elev(W)|/(2·radius))))`
with the four points offset by `radius/111000` degrees — the claim's
formula holds only up to that final rounding step (see the
counterexample). -/
theorem slope_props :
    (∀ (elev : ℚ → ℚ → ℚ) (lat lon radius : ℚ),
      get_slope elev lat lon radius = pyRound (slope_formula elev lat lon radius) 2) ∧
    (∀ (elev : ℚ → ℚ → ℚ) (lat lon radius : ℚ), 0 < radius →
      0 ≤ get_slope elev lat lon radius ∧ get_slope elev lat lon radius ≤ 90) ∧
    (∀ (elev elev2 : ℚ → ℚ → ℚ) (lat lon radius : ℚ),
      elev (lat + radius / 111000) lon = elev2 (lat + radius / 111000) lon →
      elev (lat - radius / 111000) lon = elev2 (lat - radius / 111000) lon →
      elev lat (lon + radius / 111000) = elev2 lat (lon + radius / 111000) →
      elev lat (lon - radius / 111000) = elev2 lat (lon - radius / 111000) →
      get_slope elev lat lon radius = get_slope elev2 lat lon radius) ∧
    (∀ (elev : ℚ → ℚ → ℚ) (lat lon radius : ℚ),
      elev (lat + radius / 111000) lon = elev (lat - radius / 111000) lon →
      elev lat (lon + radius / 111000) = elev lat (lon - radius / 111000) →
      get_slope elev lat lon radius = 0) := by
  refine ⟨fun _ _ _ _ => rfl, ?_, ?_, ?_⟩
  · intro elev lat lon radius hr
    have hm0 : (0 : ℚ) ≤ max
        (|elev (lat + radius / 111000) lon - elev (lat - radius / 111000) lon| / (2 * radius))
        (|elev lat (lon + radius / 111000) - elev lat (lon - radius / 111000)| / (2 * radius)) :=
      le_max_of_le_left (div_nonneg (abs_nonneg _) (by linarith))
    simpa only [get_slope] using slope_val_mem hm0
  · intro elev elev2 lat lon radius h1 h2 h3 h4
    simp only [get_slope, h1, h2, h3, h4]
  · intro elev lat lon radius h1 h2
    simp only [get_slope, h1, h2, sub_self, abs_zero, zero_div, max_self]
    rw [Rat.cast_zero, Real.arctan_zero]
    unfold degrees pyRound
    rw [zero_mul, zero_div, zero_mul,
      roundHalfEven_eq 0 (by norm_num) (by norm_num)]
    norm_num

/-- Closed instance of `slope_props`: constant elevation yields slope 0 at
Kochi with the default 500 m radius. -/
theorem slope_props_witness :
    get_slope (fun _ _ => 7) (993 / 100) (7627 / 100) 500 = 0 :=
  slope_props.2.2.2 (fun _ _ => 7) (993 / 100) (7627 / 100) 500 rfl rfl

/-- **C7** is false as stated: `get_slope` rounds the formula value to two
decimals.  With a 0.01 m north-south elevation difference over the 1000 m
run (radius 500 m) the claimed value `degrees(arctan(1/100000))` is
strictly positive, yet `get_slope` returns exactly 0. -/
theorem slope_counterexample :
    get_slope (fun la _ => if la = 1 / 222 then 1 / 100 else 0) 0 0 500 = 0 ∧
    slope_formula (fun la _ => if la = 1 / 222 then 1 / 100 else 0) 0 0 500 ≠ 0 := by
  have hform : slope_formula (fun la _ => if la = 1 / 222 then 1 / 100 else 0) 0 0 500 =
      degrees (Real.arctan ((1 : ℝ) / 100000)) := by
    simp only [slope_formula]
    norm_num [abs_of_nonneg, max_def]
  have hlt : Real.arctan (1 / 100000) < Real.pi / 36000 := by
    have hpos : (0 : ℝ) < Real.pi / 36000 := by positivity
    have hlt2 : Real.pi / 36000 < Real.pi / 2 := by linarith [Real.pi_pos]
    have htan : Real.pi / 36000 < Real.tan (Real.pi / 36000) := Real.lt_tan hpos hlt2
    have hx : (1 / 100000 : ℝ) < Real.tan (Real.pi / 36000) := by
      have hxx : (1 / 100000 : ℝ) < Real.pi / 36000 := by linarith [Real.pi_gt_three]
      linarith
    calc Real.arctan (1 / 100000) < Real.arctan (Real.tan (Real.pi / 36000)) :=
          Real.arctan_strictMono hx
    _ = Real.pi / 36000 := Real.arctan_tan (by linarith [Real.pi_pos]) hlt2
  have hpos : 0 < Real.arctan (1 / 100000) := by
    have h := Real.arctan_strictMono (show (0 : ℝ) < 1 / 100000 by norm_num)
    rwa [Real.arctan_zero] at h
  constructor
  · rw [show get_slope (fun la _ => if la = 1 / 222 then 1 / 100 else 0) 0 0 500 =
        pyRound (slope_formula (fun la _ => if la = 1 / 222 then 1 / 100 else 0) 0 0 500) 2
        from rfl, hform]
    unfold pyRound
    have hub : degrees (Real.arctan (1 / 100000)) * 10 ^ 2 < 1 / 2 := by
      unfold degrees
      rw [div_mul_eq_mul_div, div_lt_iff₀ Real.pi_pos]
      nlinarith [hlt, Real.pi_pos]
    have hlb : (0 : ℝ) ≤ degrees (Real.arctan (1 / 100000)) * 10 ^ 2 := by
      unfold degrees
      have hq : (0 : ℝ) ≤ Real.arctan (1 / 100000) * 180 / Real.pi :=
        div_nonneg (mul_nonneg hpos.le (by norm_num)) Real.pi_pos.le
      nlinarith [hq]
    rw [roundHalfEven_eq 0 (by exact_mod_cast hlb) (by push_cast; linarith [hub])]
    norm_num
  · rw [hform]
    have hd : 0 < degrees (Real.arctan (1 / 100000)) := by
      unfold degrees
      exact div_pos (mul_pos hpos (by norm_num)) Real.pi_pos
    exact hd.ne'

end SafeLand
